import Mathlib

/-!
Verification of the dpvs healthcheck checker/actioner package.

Shallow embedding of `tools/healthcheck/pkg/checker` (udp_checker.go,
udpping_checker.go, checker.go, the `KernelRouteAddDel` actioner) and of
`tools/healthcheck/pkg/utils` (L3L4Addr and friends).

Modelling conventions:
  * Go strings (and `[]byte` payloads) are modelled as `List Nat` of their
    code points; every string literal appearing in the sources is ASCII, so
    the byte view and the rune view coincide.
  * Network and kernel side effects are modelled by environment records that
    fix the outcome of each external call; the embedded functions mirror the
    source's control flow over those outcomes.
  * Go `time.Duration` is modelled as `Int` (nanoseconds); the only facts the
    code uses are comparisons with zero and subtraction.
-/

/-- Code points of a Lean string literal; used to transcribe Go string
literals into the `List Nat` model. -/
def gs (s : String) : List Nat := s.data.map Char.toNat

/-- `types.State` of package `types`: the probe verdict / health signal. -/
inductive GoState where
  | unknown
  | healthy
  | unhealthy
  deriving DecidableEq, Repr

/-- ASCII lower-casing of one rune, as `strings.ToLower` acts on the ASCII
range (the method-name and parameter-value comparisons in the sources only
involve ASCII letters; the single non-ASCII rune Go lowers into ASCII,
U+212A to `k`, cannot occur in any recognized name, which contain no `k`). -/
def toLowerRune (c : Nat) : Nat :=
  if 65 ≤ c ∧ c ≤ 90 then c + 32 else c

/-- `strings.ToLower` on the rune-list model. -/
def goToLower (s : List Nat) : List Nat := s.map toLowerRune

/-- Fuel-driven core of the decimal rendering (structural recursion so the
kernel can evaluate it; `fuel > n` always suffices). -/
def utoaFuel : Nat → Nat → List Nat
  | 0, _ => []
  | fuel + 1, n =>
    if n < 10 then [48 + n] else utoaFuel fuel (n / 10) ++ [48 + n % 10]

/-- Decimal rendering of an unsigned integer, as `fmt.Sprintf("%d", n)`. -/
def utoa (n : Nat) : List Nat := utoaFuel (n + 1) n

-- ### Constants of checker.go

/-- `proxyProtoV1LocalCmd = "PROXY UNKNOWN\r\n"` (checker.go). -/
def proxyProtoV1LocalCmd : List Nat := gs "PROXY UNKNOWN\r\n"

/-- `proxyProtoV2LocalCmd` (checker.go): the 16-byte PROXY v2 LOCAL command. -/
def proxyProtoV2LocalCmd : List Nat :=
  [0x0D, 0x0A, 0x0D, 0x0A, 0x00, 0x0D, 0x0A, 0x51,
   0x55, 0x49, 0x54, 0x0A, 0x20, 0x00, 0x00, 0x00]

-- ### UDPChecker (udp_checker.go)

/-- The `UDPChecker` struct: `send`, `receive`, `proxyProto` fields. -/
structure UDPChecker where
  send : List Nat := []
  receive : List Nat := []
  proxyProto : List Nat := []
  deriving DecidableEq, Repr

/-- Outcome of a read attempt that failed: whether the error is a
`net.Error` and whether its `Timeout()` method reports true. -/
structure NetErr where
  isNetError : Bool
  isTimeout : Bool
  deriving DecidableEq, Repr

/-- Environment fixing the outcome of every network call made by
`UDPChecker.Check`: dialing, the `*net.UDPConn` type assertion,
`SetDeadline`, the two writes, and the read (`Except.error` carries the
read error, `Except.ok` the bytes the kernel delivered). -/
structure UDPEnv where
  dialOk : Bool
  isUDPConn : Bool
  setDeadlineOk : Bool
  writeProxyOk : Bool
  writeSendOk : Bool
  read : Except NetErr (List Nat)

/-- `UDPChecker.Check` (udp_checker.go lines 53-132), instrumented with the
trace of payloads written on the connection (in order).  Mirrors the source:
non-positive timeout returns `(Unknown, error)`; each network failure returns
`(Unhealthy, nil)`; a read error with both `send` and `receive` empty that is
a net timeout returns `(Healthy, nil)`; a successful read is compared with
`receive` (the buffer is `len(receive)` bytes, so at most that many bytes are
kept). -/
def udpCheckFull (c : UDPChecker) (env : UDPEnv) (timeout : Int) :
    GoState × Option (List Nat) × List (List Nat) :=
  if timeout ≤ 0 then
    (GoState.unknown, some (gs "zero timeout on UDP check"), [])
  else if ¬ env.dialOk then (GoState.unhealthy, none, [])
  else if ¬ env.isUDPConn then (GoState.unhealthy, none, [])
  else if ¬ env.setDeadlineOk then (GoState.unhealthy, none, [])
  else
    let tr0 : List (List Nat) :=
      if c.proxyProto = gs "v2" then [proxyProtoV2LocalCmd] else []
    if c.proxyProto = gs "v2" ∧ ¬ env.writeProxyOk then
      (GoState.unhealthy, none, tr0)
    else
      let tr1 := tr0 ++ [c.send]
      if ¬ env.writeSendOk then (GoState.unhealthy, none, tr1)
      else
        match env.read with
        | Except.error e =>
          if c.send = [] ∧ c.receive = [] ∧ e.isNetError ∧ e.isTimeout then
            (GoState.healthy, none, tr1)
          else (GoState.unhealthy, none, tr1)
        | Except.ok data =>
          let got := data.take c.receive.length
          if got ≠ c.receive then (GoState.unhealthy, none, tr1)
          else (GoState.healthy, none, tr1)

/-- The `(state, err)` pair `UDPChecker.Check` returns. -/
def udpCheck (c : UDPChecker) (env : UDPEnv) (timeout : Int) :
    GoState × Option (List Nat) :=
  ((udpCheckFull c env timeout).1, (udpCheckFull c env timeout).2.1)

/-- The write trace of one `UDPChecker.Check` run. -/
def udpCheckTrace (c : UDPChecker) (env : UDPEnv) (timeout : Int) :
    List (List Nat) :=
  (udpCheckFull c env timeout).2.2

/-- `UDPChecker.validate` (udp_checker.go lines 134-160) over an association
list view of the params map (`true` = nil error).  The loop returns an error
for a recognized key with a bad value (`send`/`receive` empty, or
`proxy-protocol` not lower-casing to `"v2"`) and collects every other key as
unsupported, erroring afterwards if any was found; acceptance is therefore
entry-wise and independent of map iteration order, which is how it is stated
here. -/
def udpValidate : List (List Nat × List Nat) → Bool
  | [] => true
  | (k, v) :: rest =>
    if k = gs "send" then decide (v ≠ []) && udpValidate rest
    else if k = gs "receive" then decide (v ≠ []) && udpValidate rest
    else if k = gs "proxy-protocol" then
      decide (goToLower v = gs "v2") && udpValidate rest
    else false

/-- `UDPChecker.create` (udp_checker.go lines 162-180).  The source allocates
`checker := &UDPChecker{}`, then assigns the params to the receiver `c`
instead of to `checker`, and returns `checker`.  The result pair is
`(receiver after the call, returned instance)`; `none` models the validation
error. -/
def udpCreate (c : UDPChecker) (params : List (List Nat × List Nat)) :
    Option (UDPChecker × UDPChecker) :=
  if ¬ udpValidate params then none
  else
    let checker : UDPChecker := {}
    let c := match params.lookup (gs "send") with
      | some v => { c with send := v }
      | none => c
    let c := match params.lookup (gs "receive") with
      | some v => { c with receive := v }
      | none => c
    let c := match params.lookup (gs "proxy-protocol") with
      | some v => { c with proxyProto := v }
      | none => c
    some (c, checker)

/-- The parameter table C6 asserts for the udp checker, stated from the
spec's words for comparison with `udpValidate`: keys among `send`, `receive`
and `proxy-protocol`, with the proxy-protocol value `""` (empty) or `"v2"`
case-insensitively. -/
def udpParamsPermittedSpec : List (List Nat × List Nat) → Bool
  | [] => true
  | (k, v) :: rest =>
    ((k = gs "send") || (k = gs "receive") ||
      ((k = gs "proxy-protocol") && (v = [] || goToLower v = gs "v2"))) &&
    udpParamsPermittedSpec rest

-- ### UDPPingChecker (udpping_checker.go)

/-- `UDPPingChecker.Check` (udpping_checker.go lines 53-74).  `ping` is the
embedded `PingChecker.Check` as a function of the timeout it is given;
`elapsed` is the time consumed before the UDP check starts, so
`time.Until(start.Add(timeout))` is `timeout - elapsed`. -/
def udppingCheck (c : UDPChecker) (ping : Int → GoState × Option (List Nat))
    (elapsed : Int) (uenv : UDPEnv) (timeout : Int) :
    GoState × Option (List Nat) :=
  if timeout ≤ 0 then
    (GoState.unknown, some (gs "zero timeout on UDPPing check"))
  else
    match ping timeout with
    | (_, some e) => (GoState.unknown, some e)
    | (st, none) =>
      if st = GoState.unhealthy then (GoState.unhealthy, none)
      else udpCheck c uenv (timeout - elapsed)

-- ### KernelRouteAddDel actioner (checker.go, package actioner)

/-- `strings.Contains` on the rune-list model. -/
def hasSubstr (s pat : List Nat) : Bool :=
  if pat.isPrefixOf s then true
  else
    match s with
    | [] => false
    | _ :: rest => hasSubstr rest pat

/-- An error returned by a netlink call: which errnos `errors.Is` matches,
and the error message text. -/
structure KErr where
  isEEXIST : Bool
  isENOENT : Bool
  isESRCH : Bool
  msg : List Nat
  deriving DecidableEq, Repr

/-- `isExistError` (checker.go lines 255-258): `errors.Is(err, unix.EEXIST)`. -/
def isExistError (e : KErr) : Bool := e.isEEXIST

/-- `isNotExistError` (checker.go lines 262-266): ENOENT, ESRCH, or the
message lower-cased contains "cannot assign requested address". -/
def isNotExistError (e : KErr) : Bool :=
  e.isENOENT || e.isESRCH ||
    hasSubstr (goToLower e.msg) (gs "cannot assign requested address")

/-- `net.CIDRMask(ones, bits)`: `bits/8` bytes, byte `i` holding the next
eight mask bits; nil (here `[]`) when `bits` is not a byte multiple or
`ones > bits`. -/
def cidrMask (ones bits : Nat) : List Nat :=
  if bits % 8 ≠ 0 ∨ bits < ones then []
  else (List.range (bits / 8)).map (fun i => 256 - 2 ^ (8 - min 8 (ones - 8 * i)))

/-- `net.IP.To4`: a 4-byte address, or the low 4 bytes of a 16-byte
IPv4-in-IPv6 address (ten zero bytes then `0xFF 0xFF`), else nil. -/
def ipTo4 (ip : List Nat) : Option (List Nat) :=
  if ip.length = 4 then some ip
  else if ip.length = 16 ∧ ip.take 10 = List.replicate 10 0 ∧
      ip.get? 10 = some 0xFF ∧ ip.get? 11 = some 0xFF then
    some (ip.drop 12)
  else none

/-- A `net.IPNet`: an address plus mask. -/
structure IPNet where
  ip : List Nat
  mask : List Nat
  deriving DecidableEq, Repr

/-- The `*net.IPNet` built by `KernelRouteAction.Act` (checker.go lines
303-308): the target address with a `/32` mask when `addr.To4() != nil`,
else a `/128` mask. -/
def kernelIPNet (addr : List Nat) : IPNet :=
  if (ipTo4 addr).isSome then ⟨addr, cidrMask 32 32⟩
  else ⟨addr, cidrMask 128 128⟩

/-- A `netlink.Route` as `Act` builds it: link index plus destination. -/
structure KRoute where
  linkIndex : Nat
  dst : IPNet
  deriving DecidableEq, Repr

/-- The route record of checker.go lines 322-326 / 344-348: destination is
exactly the address `IPNet` installed on the link. -/
def kernelActRoute (targetIP : List Nat) (linkIndex : Nat) : KRoute :=
  ⟨linkIndex, kernelIPNet targetIP⟩

/-- `errors.Is(err, unix.EEXIST)`-matching error produced by the model
kernel when an object to add is already present. -/
def eexistErr : KErr := ⟨true, false, false, gs "file exists"⟩

/-- ENOENT error produced by the model kernel when an address to delete is
absent. -/
def enoentErr : KErr := ⟨false, true, false, gs "no such file or directory"⟩

/-- ESRCH error produced by the model kernel when a route to delete is
absent. -/
def esrchErr : KErr := ⟨false, false, true, gs "no such process"⟩

/-- Placeholder for the `fmt.Errorf` values `Act` constructs itself (zero
timeout, link lookup failure); no errno matches them. -/
def plainErr (msg : String) : KErr := ⟨false, false, false, gs msg⟩

/-- The address/route table of one kernel interface, as the netlink calls of
`Act` observe it. -/
structure KernelState where
  addrs : List IPNet
  routes : List KRoute
  deriving DecidableEq, Repr

/-- `netlink.AddrAdd` against the model kernel: EEXIST when present. -/
def kAddrAdd (st : KernelState) (a : IPNet) : Option KErr × KernelState :=
  if a ∈ st.addrs then (some eexistErr, st)
  else (none, { st with addrs := a :: st.addrs })

/-- `netlink.RouteAdd` against the model kernel: EEXIST when present. -/
def kRouteAdd (st : KernelState) (r : KRoute) : Option KErr × KernelState :=
  if r ∈ st.routes then (some eexistErr, st)
  else (none, { st with routes := r :: st.routes })

/-- `netlink.AddrDel` against the model kernel: ENOENT when absent. -/
def kAddrDel (st : KernelState) (a : IPNet) : Option KErr × KernelState :=
  if a ∈ st.addrs then (none, { st with addrs := st.addrs.erase a })
  else (some enoentErr, st)

/-- `netlink.RouteDel` against the model kernel: ESRCH when absent. -/
def kRouteDel (st : KernelState) (r : KRoute) : Option KErr × KernelState :=
  if r ∈ st.routes then (none, { st with routes := st.routes.erase r })
  else (some esrchErr, st)

/-- The `RouteAdd` block of `Act` (checker.go lines 322-333): an error that
is not `isExistError` is returned, an "already exists" error is demoted. -/
def routeAddStep (st : KernelState) (route : KRoute) : Option KErr × KernelState :=
  match kRouteAdd st route with
  | (some e, st2) => if ¬ isExistError e then (some e, st2) else (none, st2)
  | (none, st2) => (none, st2)

/-- The `RouteDel` block of `Act` (checker.go lines 344-355): an error that
is not `isNotExistError` is returned, a "not found" error is demoted. -/
def routeDelStep (st : KernelState) (route : KRoute) : Option KErr × KernelState :=
  match kRouteDel st route with
  | (some e, st2) => if ¬ isNotExistError e then (some e, st2) else (none, st2)
  | (none, st2) => (none, st2)

/-- The ADD branch of `Act` (checker.go lines 312-333): `AddrAdd` with
"already exists" demoted to a warning, then the optional host route. -/
def kernelAddPath (withRoute : Bool) (ipNet : IPNet) (route : KRoute)
    (st : KernelState) : Option KErr × KernelState :=
  match kAddrAdd st ipNet with
  | (some e, st1) =>
    if isExistError e then
      if withRoute then routeAddStep st1 route else (none, st1)
    else (some e, st1)
  | (none, st1) =>
    if withRoute then routeAddStep st1 route else (none, st1)

/-- The DELETE branch of `Act` (checker.go lines 334-356): `AddrDel` with
"not found" demoted to a warning, then the optional host route. -/
def kernelDelPath (withRoute : Bool) (ipNet : IPNet) (route : KRoute)
    (st : KernelState) : Option KErr × KernelState :=
  match kAddrDel st ipNet with
  | (some e, st1) =>
    if isNotExistError e then
      if withRoute then routeDelStep st1 route else (none, st1)
    else (some e, st1)
  | (none, st1) =>
    if withRoute then routeDelStep st1 route else (none, st1)

/-- `KernelRouteAction.Act` (checker.go lines 268-377) run against the model
kernel: the zero-timeout guard, link lookup, then the add path (signal not
`Unhealthy`) or the delete path.  Returns the error `Act` returns (`none` =
success) and the kernel state afterwards. -/
def kernelRouteActOn (ifnameOk withRoute : Bool) (targetIP : List Nat)
    (linkIndex : Nat) (signal : GoState) (timeout : Int) (st : KernelState) :
    Option KErr × KernelState :=
  if timeout ≤ 0 then (some (plainErr "zero timeout"), st)
  else if ¬ ifnameOk then (some (plainErr "failed to get link by name"), st)
  else
    let ipNet := kernelIPNet targetIP
    let route := kernelActRoute targetIP linkIndex
    if signal ≠ GoState.unhealthy then kernelAddPath withRoute ipNet route st
    else kernelDelPath withRoute ipNet route st

/-- `KernelRouteAction.Act` with the outcome of each netlink call left
abstract (only calls actually reached by the control flow are consulted):
the returned error. -/
def kernelRouteActResult (withRoute : Bool) (signal : GoState) (timeout : Int)
    (linkOk : Bool) (addrAddRes routeAddRes addrDelRes routeDelRes : Option KErr) :
    Option KErr :=
  if timeout ≤ 0 then some (plainErr "zero timeout")
  else if ¬ linkOk then some (plainErr "failed to get link by name")
  else if signal ≠ GoState.unhealthy then
    match addrAddRes with
    | some e =>
      if isExistError e then
        if withRoute then
          match routeAddRes with
          | some e' => if ¬ isExistError e' then some e' else none
          | none => none
        else none
      else some e
    | none =>
      if withRoute then
        match routeAddRes with
        | some e' => if ¬ isExistError e' then some e' else none
        | none => none
      else none
  else
    match addrDelRes with
    | some e =>
      if isNotExistError e then
        if withRoute then
          match routeDelRes with
          | some e' => if ¬ isNotExistError e' then some e' else none
          | none => none
        else none
      else some e
    | none =>
      if withRoute then
        match routeDelRes with
        | some e' => if ¬ isNotExistError e' then some e' else none
        | none => none
      else none

-- ### utils package: IPProto, L3L4Addr (pkg/utils)

/-- `syscall.IPPROTO_ICMP`. -/
def IPProtoICMP : Nat := 1
/-- `syscall.IPPROTO_TCP`. -/
def IPProtoTCP : Nat := 6
/-- `syscall.IPPROTO_UDP`. -/
def IPProtoUDP : Nat := 17
/-- `syscall.IPPROTO_ICMPV6`. -/
def IPProtoICMPv6 : Nat := 58

/-- `IPProto.String` (pkg/utils): names for the four known protocols,
`IPProto(n)` otherwise. -/
def ipProtoString (p : Nat) : List Nat :=
  if p = IPProtoICMP then gs "ICMP"
  else if p = IPProtoICMPv6 then gs "ICMPv6"
  else if p = IPProtoTCP then gs "TCP"
  else if p = IPProtoUDP then gs "UDP"
  else gs "IPProto(" ++ utoa p ++ gs ")"

/-- `ParseIPProto` (pkg/utils): inverse table, `0` for anything else. -/
def parseIPProto (s : List Nat) : Nat :=
  if s = gs "TCP" then IPProtoTCP
  else if s = gs "UDP" then IPProtoUDP
  else if s = gs "ICMP" then IPProtoICMP
  else if s = gs "ICMPv6" then IPProtoICMPv6
  else 0

/-- `utils.L3L4Addr`: IP bytes, port, protocol. -/
structure L3L4Addr where
  ip : List Nat
  port : Nat
  proto : Nat
  deriving DecidableEq, Repr

/-- `L3L4Addr.String`: `fmt.Sprintf("%s-%s-%d", addr.IP, addr.Proto,
addr.Port)`.  The `%s` rendering of `addr.IP` is produced by the standard
library (`net.IP.String`), so it is passed in as `ipStr`. -/
def l3l4String (ipStr : List Nat) (addr : L3L4Addr) : List Nat :=
  ipStr ++ [45] ++ ipProtoString addr.proto ++ [45] ++ utoa addr.port

/-- `strings.Split(s, "-")` on the rune-list model (the separator is the
single ASCII rune `-` = 45). -/
def splitOnDash : List Nat → List (List Nat)
  | [] => [[]]
  | c :: rest =>
    if c = 45 then [] :: splitOnDash rest
    else
      match splitOnDash rest with
      | [] => [[c]]
      | g :: tl => (c :: g) :: tl

/-- `strconv.ParseUint(s, 10, 16)` as `ParseL3L4Addr` consumes it: decimal
digits only, non-empty, value below `2^16`; `none` models a parse error. -/
def parseUint16 (s : List Nat) : Option Nat :=
  if s = [] then none
  else if s.all (fun c => 48 ≤ c && c ≤ 57) then
    let v := s.foldl (fun acc c => acc * 10 + (c - 48)) 0
    if v < 65536 then some v else none
  else none

/-- `ParseL3L4Addr` (pkg/utils): split on `-`, parse the segments in order
(IP by the standard library's `net.ParseIP`, passed in as `parseIP`;
protocol by `ParseIPProto`; port by `strconv.ParseUint(_, 10, 16)`),
returning nil (`none`) as soon as a present segment fails to parse; missing
trailing segments leave the zero value (nil IP, proto 0, port 0).  The Go
reslice `segs = segs[1:]` is modelled by peeling the list; it can only panic
for inputs with fewer than two `-` separators, which no rendered key has. -/
def parseL3L4Addr (parseIP : List Nat → Option (List Nat)) (s : List Nat) :
    Option L3L4Addr :=
  match splitOnDash s with
  | [] => some ⟨[], 0, 0⟩
  | seg0 :: rest =>
    match parseIP seg0 with
    | none => none
    | some ip =>
      match rest with
      | [] => some ⟨ip, 0, 0⟩
      | seg1 :: rest2 =>
        if parseIPProto seg1 = 0 then none
        else
          match rest2 with
          | [] => some ⟨ip, 0, parseIPProto seg1⟩
          | seg2 :: _ =>
            match parseUint16 seg2 with
            | none => none
            | some port => some ⟨ip, port, parseIPProto seg1⟩

/-- The IPv4-in-IPv6 prefix `::ffff:0:0/96` of the net package. -/
def v4InV6Prefix : List Nat := [0, 0, 0, 0, 0, 0, 0, 0, 0, 0, 0xFF, 0xFF]

/-- `net.IP.Equal`: same-length byte equality, or a 4-byte address against
its 16-byte IPv4-in-IPv6 form. -/
def ipEqual (a b : List Nat) : Bool :=
  if a.length = b.length then a = b
  else if a.length = 4 ∧ b.length = 16 then
    decide (b.take 12 = v4InV6Prefix ∧ a = b.drop 12)
  else if a.length = 16 ∧ b.length = 4 then
    decide (a.take 12 = v4InV6Prefix ∧ b = a.drop 12)
  else false

-- ### Method names (checker.go, package checker)

/-- `CheckMethodNone` (kind id 1). -/
def CheckMethodNone : Nat := 1
/-- `CheckMethodTCP` (kind id 2). -/
def CheckMethodTCP : Nat := 2
/-- `CheckMethodUDP` (kind id 3). -/
def CheckMethodUDP : Nat := 3
/-- `CheckMethodPing` (kind id 4). -/
def CheckMethodPing : Nat := 4
/-- `CheckMethodUDPPing` (kind id 5). -/
def CheckMethodUDPPing : Nat := 5
/-- `CheckMethodHTTP` (kind id 6). -/
def CheckMethodHTTP : Nat := 6
/-- `CheckMethodAuto` (kind id 10000). -/
def CheckMethodAuto : Nat := 10000
/-- `CheckMethodPassive` (kind id 65535). -/
def CheckMethodPassive : Nat := 65535

/-- `ParseMethod` (checker.go lines 121-141): lower-case the name, then the
switch over the seven recognized names; `0` otherwise. -/
def parseMethod (s : List Nat) : Nat :=
  let name := goToLower s
  if name = gs "tcp" then CheckMethodTCP
  else if name = gs "udp" then CheckMethodUDP
  else if name = gs "ping" then CheckMethodPing
  else if name = gs "udpping" then CheckMethodUDPPing
  else if name = gs "http" then CheckMethodHTTP
  else if name = gs "none" then CheckMethodNone
  else if name = gs "auto" then CheckMethodAuto
  else 0

/-- `Method.String` (checker.go lines 143-165). -/
def methodString (m : Nat) : List Nat :=
  if m = CheckMethodTCP then gs "tcp"
  else if m = CheckMethodUDP then gs "udp"
  else if m = CheckMethodPing then gs "ping"
  else if m = CheckMethodUDPPing then gs "udpping"
  else if m = CheckMethodNone then gs "none"
  else if m = CheckMethodHTTP then gs "http"
  else if m = CheckMethodPassive then gs "passive"
  else if m = CheckMethodAuto then gs "auto"
  else gs "unknown(" ++ utoa m ++ gs ")"

-- ### Model-kernel lemmas for the actioner

/-- On the model kernel, `KernelRouteAction.Act` never fails for a positive
timeout and a resolvable link: whatever is already present yields an
`EEXIST`/`ENOENT`/`ESRCH` error, which `Act` demotes. -/
theorem routeAddStep_ok (st : KernelState) (route : KRoute) :
    (routeAddStep st route).1 = none := by
  have hA : isExistError eexistErr = true := by decide
  by_cases hmem : route ∈ st.routes <;> simp [routeAddStep, kRouteAdd, hmem, hA]

theorem routeDelStep_ok (st : KernelState) (route : KRoute) :
    (routeDelStep st route).1 = none := by
  have hC : isNotExistError esrchErr = true := by decide
  by_cases hmem : route ∈ st.routes <;> simp [routeDelStep, kRouteDel, hmem, hC]

theorem kernelAddPath_ok (wr : Bool) (ipNet : IPNet) (route : KRoute)
    (st : KernelState) : (kernelAddPath wr ipNet route st).1 = none := by
  have hA : isExistError eexistErr = true := by decide
  by_cases hmem : ipNet ∈ st.addrs <;> cases wr <;>
    simp [kernelAddPath, kAddrAdd, hmem, hA, routeAddStep_ok]

theorem kernelDelPath_ok (wr : Bool) (ipNet : IPNet) (route : KRoute)
    (st : KernelState) : (kernelDelPath wr ipNet route st).1 = none := by
  have hB : isNotExistError enoentErr = true := by decide
  by_cases hmem : ipNet ∈ st.addrs <;> cases wr <;>
    simp [kernelDelPath, kAddrDel, hmem, hB, routeDelStep_ok]

theorem kernelRouteActOn_succeeds (wr : Bool) (ip : List Nat) (idx : Nat)
    (sig : GoState) (t : Int) (st : KernelState) (ht : 0 < t) :
    (kernelRouteActOn true wr ip idx sig t st).1 = none := by
  have ht' : ¬ t ≤ 0 := by omega
  by_cases hsig : sig = GoState.unhealthy <;>
    simp [kernelRouteActOn, ht', hsig, kernelAddPath_ok, kernelDelPath_ok]

/-- C5: `KernelRouteAction.Act` is idempotent per signal.  (i) On an Up
signal, an `isExistError` ("already exists", EEXIST) from the address add is
demoted and — provided the optional route add either succeeds or also
reports "already exists" — `Act` returns success.  (ii) On a Down signal, an
`isNotExistError` ("not found") from the address delete is likewise demoted.
(iii) `isNotExistError` holds for ENOENT, for ESRCH, and for an error whose
message (lower-cased) merely contains "cannot assign requested address".
(iv) Hence, against the kernel model, running `Act` twice with the same
signal succeeds both times, the second run leaving the kernel state
unchanged. -/
theorem kernel_route_act_idempotent :
    (∀ (wr : Bool) (t : Int) (e : KErr) (rres dres1 dres2 : Option KErr),
      0 < t → isExistError e = true →
      (rres = none ∨ ∃ e2, rres = some e2 ∧ isExistError e2 = true) →
      kernelRouteActResult wr GoState.healthy t true (some e) rres dres1 dres2 =
        none) ∧
    (∀ (wr : Bool) (t : Int) (e : KErr) (dres ares1 ares2 : Option KErr),
      0 < t → isNotExistError e = true →
      (dres = none ∨ ∃ e2, dres = some e2 ∧ isNotExistError e2 = true) →
      kernelRouteActResult wr GoState.unhealthy t true ares1 ares2 (some e) dres =
        none) ∧
    (∀ e : KErr, e.isENOENT = true → isNotExistError e = true) ∧
    (∀ e : KErr, e.isESRCH = true → isNotExistError e = true) ∧
    (∀ msg : List Nat,
      hasSubstr (goToLower msg) (gs "cannot assign requested address") = true →
      isNotExistError ⟨false, false, false, msg⟩ = true) ∧
    (∀ (st : KernelState) (wr : Bool) (ip : List Nat) (idx : Nat)
        (sig : GoState) (t : Int), 0 < t →
      (kernelRouteActOn true wr ip idx sig t st).1 = none ∧
      (kernelRouteActOn true wr ip idx sig t
        (kernelRouteActOn true wr ip idx sig t st).2).1 = none) := by
  refine ⟨?_, ?_, ?_, ?_, ?_, ?_⟩
  · intro wr t e rres dres1 dres2 ht he hr
    have ht' : ¬ t ≤ 0 := by omega
    rcases hr with h | ⟨e2, he2, hex⟩ <;> cases wr <;>
      simp [kernelRouteActResult, ht', he, *]
  · intro wr t e dres ares1 ares2 ht he hr
    have ht' : ¬ t ≤ 0 := by omega
    rcases hr with h | ⟨e2, he2, hex⟩ <;> cases wr <;>
      simp [kernelRouteActResult, ht', he, *]
  · intro e h; simp [isNotExistError, h]
  · intro e h; simp [isNotExistError, h]
  · intro msg h; simp [isNotExistError, h]
  · intro st wr ip idx sig t ht
    exact ⟨kernelRouteActOn_succeeds wr ip idx sig t st ht,
      kernelRouteActOn_succeeds wr ip idx sig t _ ht⟩

/-- Witness for `kernel_route_act_idempotent`: two consecutive Up signals
for `192.0.2.1` with `with-route` on, starting from an empty interface. -/
theorem kernel_route_act_idempotent_witness :
    (kernelRouteActOn true true [192, 0, 2, 1] 7 GoState.healthy 2000000000
        ⟨[], []⟩).1 = none ∧
    (kernelRouteActOn true true [192, 0, 2, 1] 7 GoState.healthy 2000000000
        (kernelRouteActOn true true [192, 0, 2, 1] 7 GoState.healthy 2000000000
          ⟨[], []⟩).2).1 = none :=
  kernel_route_act_idempotent.2.2.2.2.2 ⟨[], []⟩ true [192, 0, 2, 1] 7
    GoState.healthy 2000000000 (by decide)

/-- C7: the address `KernelRouteAction.Act` installs or removes keeps the
target IP with a `/32` mask (4 bytes of ones) when the IP is IPv4 (`To4`
non-nil) and a `/128` mask (16 bytes of ones) when it is IPv6, and the host
route's destination is exactly that address network; concretely, an Up
action with `with-route` on an empty interface installs exactly that address
and a route to it. -/
theorem kernel_route_mask_and_route (ip : List Nat) (idx : Nat) (t : Int)
    (ht : 0 < t) :
    (kernelIPNet ip).ip = ip ∧
    ((ipTo4 ip).isSome → (kernelIPNet ip).mask = cidrMask 32 32) ∧
    (¬ (ipTo4 ip).isSome → (kernelIPNet ip).mask = cidrMask 128 128) ∧
    cidrMask 32 32 = List.replicate 4 255 ∧
    cidrMask 128 128 = List.replicate 16 255 ∧
    (kernelActRoute ip idx).dst = kernelIPNet ip ∧
    (kernelRouteActOn true true ip idx GoState.healthy t ⟨[], []⟩).2.addrs =
      [kernelIPNet ip] ∧
    (kernelRouteActOn true true ip idx GoState.healthy t ⟨[], []⟩).2.routes =
      [⟨idx, kernelIPNet ip⟩] := by
  have ht' : ¬ t ≤ 0 := by omega
  refine ⟨?_, fun h => ?_, fun h => ?_, by decide, by decide, rfl, ?_, ?_⟩
  · unfold kernelIPNet; split <;> rfl
  · simp [kernelIPNet, h]
  · simp [kernelIPNet, h]
  · simp [kernelRouteActOn, ht', kernelAddPath, kAddrAdd, routeAddStep,
      kRouteAdd, kernelActRoute]
  · simp [kernelRouteActOn, ht', kernelAddPath, kAddrAdd, routeAddStep,
      kRouteAdd, kernelActRoute]

/-- Witness for `kernel_route_mask_and_route` at the IPv4 target
`192.0.2.1`. -/
theorem kernel_route_mask_and_route_witness :
    (kernelIPNet [192, 0, 2, 1]).ip = [192, 0, 2, 1] ∧
    (kernelIPNet [192, 0, 2, 1]).mask = List.replicate 4 255 ∧
    (kernelRouteActOn true true [192, 0, 2, 1] 7 GoState.healthy 1
        ⟨[], []⟩).2.routes = [⟨7, kernelIPNet [192, 0, 2, 1]⟩] := by
  have h := kernel_route_mask_and_route [192, 0, 2, 1] 7 1 (by decide)
  exact ⟨h.1, by rw [h.2.1 (by decide)]; decide, h.2.2.2.2.2.2.2⟩


-- ### Supporting lemmas for the round-trip claims

theorem utoaFuel_irrel (fuel₁ : Nat) :
    ∀ fuel₂ n, n < fuel₁ → n < fuel₂ → utoaFuel fuel₁ n = utoaFuel fuel₂ n := by
  induction fuel₁ with
  | zero => intro _ _ h; omega
  | succ f ih =>
    intro fuel₂ n h1 h2
    match fuel₂, h2 with
    | f2 + 1, _ =>
      simp only [utoaFuel]
      by_cases h10 : n < 10
      · simp [h10]
      · simp only [if_neg h10]
        rw [ih f2 (n / 10) (by omega) (by omega)]

/-- The defining recursion of `utoa`. -/
theorem utoa_eq (n : Nat) :
    utoa n = if n < 10 then [48 + n] else utoa (n / 10) ++ [48 + n % 10] := by
  show (if n < 10 then [48 + n] else utoaFuel n (n / 10) ++ [48 + n % 10]) = _
  by_cases h10 : n < 10
  · simp [h10]
  · simp only [if_neg h10, utoa]
    rw [utoaFuel_irrel n (n / 10 + 1) (n / 10) (by omega) (by omega)]


theorem splitOnDash_no_dash (a : List Nat) (h : 45 ∉ a) :
    splitOnDash a = [a] := by
  induction a with
  | nil => rfl
  | cons c rest ih =>
    have hc : c ≠ 45 := fun hc => h (hc ▸ List.mem_cons_self c rest)
    have hrest : 45 ∉ rest := fun hm => h (List.mem_cons_of_mem c hm)
    simp [splitOnDash, hc, ih hrest]

theorem splitOnDash_append (a r : List Nat) (h : 45 ∉ a) :
    splitOnDash (a ++ 45 :: r) = a :: splitOnDash r := by
  induction a with
  | nil => simp [splitOnDash]
  | cons c rest ih =>
    have hc : c ≠ 45 := fun hc => h (hc ▸ List.mem_cons_self c rest)
    have hrest : 45 ∉ rest := fun hm => h (List.mem_cons_of_mem c hm)
    simp only [List.cons_append, splitOnDash, hc, if_false, List.append_eq]
    rw [ih hrest]

theorem utoa_digits (n : Nat) : ∀ c ∈ utoa n, 48 ≤ c ∧ c ≤ 57 := by
  induction n using Nat.strong_induction_on with
  | _ n ih =>
    intro c hc
    rw [utoa_eq] at hc
    by_cases h10 : n < 10
    · simp [h10] at hc; omega
    · simp only [if_neg h10, List.mem_append, List.mem_singleton] at hc
      rcases hc with hc | hc
      · exact ih (n / 10) (Nat.div_lt_self (by omega) (by omega)) c hc
      · have : n % 10 < 10 := Nat.mod_lt _ (by omega)
        omega

theorem utoa_ne_nil (n : Nat) : utoa n ≠ [] := by
  rw [utoa_eq]
  by_cases h10 : n < 10 <;> simp [h10]

theorem utoa_foldl (n : Nat) :
    (utoa n).foldl (fun acc c => acc * 10 + (c - 48)) 0 = n := by
  induction n using Nat.strong_induction_on with
  | _ n ih =>
    rw [utoa_eq]
    by_cases h10 : n < 10
    · simp [h10]
    · have hd : n / 10 < n := Nat.div_lt_self (by omega) (by omega)
      have hm : n % 10 < 10 := Nat.mod_lt _ (by omega)
      simp only [if_neg h10, List.foldl_append, List.foldl_cons, List.foldl_nil,
        ih (n / 10) hd]
      omega

theorem parseUint16_utoa (n : Nat) (h : n < 65536) :
    parseUint16 (utoa n) = some n := by
  have hne : utoa n ≠ [] := utoa_ne_nil n
  have hall : (utoa n).all (fun c => 48 ≤ c && c ≤ 57) = true := by
    rw [List.all_eq_true]
    intro c hc
    have := utoa_digits n c hc
    simp; omega
  simp [parseUint16, hne, hall, utoa_foldl, h]

theorem dash_not_mem_utoa (n : Nat) : 45 ∉ utoa n := by
  intro hm
  have := utoa_digits n 45 hm
  omega

theorem toLowerRune_idem (c : Nat) :
    toLowerRune (toLowerRune c) = toLowerRune c := by
  unfold toLowerRune
  split_ifs <;> omega

theorem goToLower_idem (s : List Nat) :
    goToLower (goToLower s) = goToLower s := by
  induction s with
  | nil => rfl
  | cons c rest ih =>
    simp [goToLower, toLowerRune_idem]

-- ## Theorems

/-- C1: for the udp probe with `send` and `receive` both empty, if the read
after the (possibly zero-length) write fails with a network timeout error,
`Check` returns `(Healthy, nil)` rather than `Unknown` or `Unhealthy`. -/
theorem udp_check_empty_timeout_healthy
    (c : UDPChecker) (env : UDPEnv) (timeout : Int) (e : NetErr)
    (hsend : c.send = []) (hrecv : c.receive = [])
    (ht : 0 < timeout)
    (hdial : env.dialOk = true) (hudp : env.isUDPConn = true)
    (hdl : env.setDeadlineOk = true)
    (hwp : env.writeProxyOk = true) (hws : env.writeSendOk = true)
    (hread : env.read = Except.error e)
    (hnet : e.isNetError = true) (hto : e.isTimeout = true) :
    udpCheck c env timeout = (GoState.healthy, none) := by
  have ht' : ¬ timeout ≤ 0 := by omega
  unfold udpCheck udpCheckFull
  simp [ht', hsend, hrecv, hdial, hudp, hdl, hwp, hws, hread, hnet, hto]

/-- Witness for `udp_check_empty_timeout_healthy` at a concrete
checker/environment. -/
theorem udp_check_empty_timeout_healthy_witness :
    udpCheck {}
      { dialOk := true, isUDPConn := true, setDeadlineOk := true,
        writeProxyOk := true, writeSendOk := true,
        read := Except.error ⟨true, true⟩ } 200000000 =
    (GoState.healthy, none) :=
  udp_check_empty_timeout_healthy {} _ 200000000 ⟨true, true⟩
    rfl rfl (by decide) rfl rfl rfl rfl rfl rfl rfl rfl

/-- C8: the PROXY-v1 preamble constant is the 15-character string
`PROXY UNKNOWN\r\n`, the PROXY-v2 LOCAL preamble constant is exactly the 16
bytes `0D 0A 0D 0A 00 0D 0A 51 55 49 54 0A 20 00 00 00`, and once the udp
probe has a connection with its deadline set, the write trace opens with the
v2 preamble (before the payload datagram) precisely when the checker's
proxy-protocol parameter is `v2`. -/
theorem proxy_preambles_and_udp_writes
    (c : UDPChecker) (env : UDPEnv) (timeout : Int)
    (ht : 0 < timeout)
    (hdial : env.dialOk = true) (hudp : env.isUDPConn = true)
    (hdl : env.setDeadlineOk = true) :
    proxyProtoV1LocalCmd =
      [80, 82, 79, 88, 89, 32, 85, 78, 75, 78, 79, 87, 78, 13, 10] ∧
    proxyProtoV1LocalCmd.length = 15 ∧
    proxyProtoV2LocalCmd =
      [0x0D, 0x0A, 0x0D, 0x0A, 0x00, 0x0D, 0x0A, 0x51,
       0x55, 0x49, 0x54, 0x0A, 0x20, 0x00, 0x00, 0x00] ∧
    proxyProtoV2LocalCmd.length = 16 ∧
    (c.proxyProto = gs "v2" →
      udpCheckTrace c env timeout =
        if env.writeProxyOk then [proxyProtoV2LocalCmd, c.send]
        else [proxyProtoV2LocalCmd]) ∧
    (c.proxyProto ≠ gs "v2" → udpCheckTrace c env timeout = [c.send]) := by
  have ht' : ¬ timeout ≤ 0 := by omega
  refine ⟨by decide, by decide, by decide, by decide, fun hv2 => ?_, fun hv2 => ?_⟩ <;>
    unfold udpCheckTrace udpCheckFull <;>
    simp only [ht', hdial, hudp, hdl, if_neg, if_false] <;>
    (repeat' split) <;> simp_all

/-- Witness for `proxy_preambles_and_udp_writes` at a concrete
checker/environment. -/
theorem proxy_preambles_and_udp_writes_witness :
    udpCheckTrace { proxyProto := gs "v2" }
      { dialOk := true, isUDPConn := true, setDeadlineOk := true,
        writeProxyOk := true, writeSendOk := true, read := Except.ok [] } 9 =
    [proxyProtoV2LocalCmd, ([] : List Nat)] := by
  have h := (proxy_preambles_and_udp_writes { proxyProto := gs "v2" }
    { dialOk := true, isUDPConn := true, setDeadlineOk := true,
      writeProxyOk := true, writeSendOk := true, read := Except.ok [] } 9
    (by decide) rfl rfl rfl).2.2.2.2.1 rfl
  simpa using h

/-- C3: the udpping probe is the composition of ping then udp: with a
positive timeout and an error-free ping verdict, a ping verdict of
`Unhealthy` makes `Check` return `(Unhealthy, nil)` immediately (for any
state of the UDP network, which is never consulted), and any other ping
verdict makes `Check` return exactly the udp check's result under the
remaining budget `timeout - elapsed`. -/
theorem udpping_check_composition
    (c : UDPChecker) (ping : Int → GoState × Option (List Nat))
    (elapsed : Int) (uenv : UDPEnv) (timeout : Int)
    (ht : 0 < timeout) (hping : (ping timeout).2 = none) :
    ((ping timeout).1 = GoState.unhealthy →
      udppingCheck c ping elapsed uenv timeout = (GoState.unhealthy, none)) ∧
    ((ping timeout).1 ≠ GoState.unhealthy →
      udppingCheck c ping elapsed uenv timeout =
        udpCheck c uenv (timeout - elapsed)) := by
  have ht' : ¬ timeout ≤ 0 := by omega
  unfold udppingCheck
  rcases hp : ping timeout with ⟨st, err⟩
  rw [hp] at hping
  simp only at hping
  subst hping
  constructor
  · intro h
    simp only at h
    simp [ht', h]
  · intro h
    simp only at h
    simp [ht', h]

/-- Witness for `udpping_check_composition`: an unhealthy ping short-circuits
the concrete UDP environment. -/
theorem udpping_check_composition_witness :
    udppingCheck {} (fun _ => (GoState.unhealthy, none)) 3
      { dialOk := true, isUDPConn := true, setDeadlineOk := true,
        writeProxyOk := true, writeSendOk := true, read := Except.ok [] } 10 =
    (GoState.unhealthy, none) :=
  (udpping_check_composition {} (fun _ => (GoState.unhealthy, none)) 3
    { dialOk := true, isUDPConn := true, setDeadlineOk := true,
      writeProxyOk := true, writeSendOk := true, read := Except.ok [] } 10
    (by decide) rfl).1 rfl

/-- Counterexample to C4: with a positive timeout, a read that fails with a
network timeout error while both `send` and `receive` are empty — a
network-level failure path (udp_checker.go lines 105-122) — makes `Check`
return `(Healthy, nil)`, not `(Unhealthy, nil)` as the claim requires of
every network-level failure path. -/
theorem udp_check_network_failure_healthy_cex :
    (0 : Int) < 7 ∧
    udpCheck {}
      { dialOk := true, isUDPConn := true, setDeadlineOk := true,
        writeProxyOk := true, writeSendOk := true,
        read := Except.error ⟨true, true⟩ } 7 = (GoState.healthy, none) ∧
    (GoState.healthy, (none : Option (List Nat))) ≠
      (GoState.unhealthy, none) := by decide

set_option maxHeartbeats 2000000 in
/-- C4 (amended): the udp probe's `Check` returns `(Unknown, non-nil
error)` exactly when the timeout is non-positive, and then without
consulting the network environment; for every positive timeout the returned
error is nil, every failure before the read (dialing, the `*net.UDPConn`
type assertion, `SetDeadline`, the preamble write, the payload write)
returns `(Unhealthy, nil)`, and a read error returns `(Unhealthy, nil)`
except in the one case that `send` and `receive` are both empty and the
error is a net timeout, which returns `(Healthy, nil)`; a successful read is
compared against `receive`, a mismatch returning `(Unhealthy, nil)`. -/
theorem udp_check_failure_paths
    (c : UDPChecker) (env : UDPEnv) (timeout : Int) :
    ((udpCheck c env timeout).1 = GoState.unknown ∧
        (udpCheck c env timeout).2 ≠ none ↔ timeout ≤ 0) ∧
    (timeout ≤ 0 → ∀ env', udpCheck c env timeout = udpCheck c env' timeout) ∧
    (0 < timeout →
      (udpCheck c env timeout).2 = none ∧
      ((env.dialOk = false ∨ env.isUDPConn = false ∨ env.setDeadlineOk = false ∨
          (c.proxyProto = gs "v2" ∧ env.writeProxyOk = false) ∨
          env.writeSendOk = false) →
        udpCheck c env timeout = (GoState.unhealthy, none)) ∧
      (∀ e, env.read = Except.error e →
        env.dialOk = true → env.isUDPConn = true → env.setDeadlineOk = true →
        (c.proxyProto = gs "v2" → env.writeProxyOk = true) →
        env.writeSendOk = true →
        udpCheck c env timeout =
          if c.send = [] ∧ c.receive = [] ∧ e.isNetError = true ∧
              e.isTimeout = true then
            (GoState.healthy, none)
          else (GoState.unhealthy, none)) ∧
      (∀ data, env.read = Except.ok data →
        env.dialOk = true → env.isUDPConn = true → env.setDeadlineOk = true →
        (c.proxyProto = gs "v2" → env.writeProxyOk = true) →
        env.writeSendOk = true →
        udpCheck c env timeout =
          if data.take c.receive.length = c.receive then (GoState.healthy, none)
          else (GoState.unhealthy, none))) := by
  by_cases ht : timeout ≤ 0
  · exact ⟨by unfold udpCheck udpCheckFull; simp [ht],
      fun _ env' => by unfold udpCheck udpCheckFull; simp [ht],
      fun h => absurd ht (by omega)⟩
  · refine ⟨?_, fun h => absurd h ht, fun _ => ⟨?_, ?_, ?_, ?_⟩⟩
    · unfold udpCheck udpCheckFull
      simp only [if_neg ht]
      (repeat' split) <;> simp_all
    · unfold udpCheck udpCheckFull
      simp only [if_neg ht]
      (repeat' split) <;> simp_all
    · unfold udpCheck udpCheckFull
      simp only [if_neg ht]
      intro hfail
      rcases hfail with h | h | h | ⟨h1, h2⟩ | h <;>
        (repeat' split) <;> simp_all
    · intro e hread hdial hudp hdl hwp hws
      unfold udpCheck udpCheckFull
      by_cases hc : c.send = [] ∧ c.receive = [] ∧ e.isNetError = true ∧
        e.isTimeout = true
      · by_cases hpp : c.proxyProto = gs "v2" <;> simp_all [if_neg ht]
      · simp only [if_neg hc]
        by_cases hpp : c.proxyProto = gs "v2" <;> simp_all [if_neg ht, if_neg hc]
    · intro data hread hdial hudp hdl hwp hws
      unfold udpCheck udpCheckFull
      by_cases hpp : c.proxyProto = gs "v2" <;>
        by_cases hc : data.take c.receive.length = c.receive <;>
        simp_all [if_neg ht]

/-- C2: evaluation of `UDPChecker.create` at a validated params map.  The
params pass validation and the call succeeds, but the instance it returns is
the freshly allocated zero-valued `UDPChecker` — the params were assigned to
the method receiver (the registry prototype, first component) instead of to
the returned instance (second component), whose `send` field is empty rather
than the validated `"ping"`. -/
theorem udp_create_returns_unbound_instance :
    udpValidate [(gs "send", gs "ping")] = true ∧
    udpCreate {} [(gs "send", gs "ping")] =
      some ({ send := gs "ping" },
            { send := [], receive := [], proxyProto := [] }) ∧
    gs "ping" ≠ [] := by decide

/-- Counterexample to C6: the params map `{proxy-protocol: ""}` is permitted
by the claim's table (empty string is one of its allowed proxy-protocol
values) yet `UDPChecker.validate` rejects it — the code accepts a present
`proxy-protocol` key only when its value lower-cases to `"v2"`. -/
theorem udp_validate_rejects_empty_proxy_proto :
    udpParamsPermittedSpec [(gs "proxy-protocol", [])] = true ∧
    udpValidate [(gs "proxy-protocol", [])] = false := by decide

/-- C6 (amended): `UDPChecker.validate` succeeds exactly on params maps
whose every entry is `send` or `receive` with a non-empty value, or
`proxy-protocol` with a value that lower-cases to `"v2"`; in particular any
unrecognized key fails, and a present `proxy-protocol` entry with the empty
value fails (absence of the key is how "no proxy protocol" is expressed). -/
theorem udp_validate_iff (params : List (List Nat × List Nat)) :
    udpValidate params = true ↔
      ∀ kv ∈ params,
        (kv.1 = gs "send" ∧ kv.2 ≠ []) ∨
        (kv.1 = gs "receive" ∧ kv.2 ≠ []) ∨
        (kv.1 = gs "proxy-protocol" ∧ goToLower kv.2 = gs "v2") := by
  induction params with
  | nil => simp [udpValidate]
  | cons kv rest ih =>
    obtain ⟨k, v⟩ := kv
    have h1 : gs "send" ≠ gs "receive" := by decide
    have h2 : gs "send" ≠ gs "proxy-protocol" := by decide
    have h3 : gs "receive" ≠ gs "proxy-protocol" := by decide
    by_cases hs : k = gs "send"
    · simp_all [udpValidate]
    · by_cases hr : k = gs "receive"
      · simp_all [udpValidate]
      · by_cases hp : k = gs "proxy-protocol"
        · simp_all [udpValidate]
        · simp_all [udpValidate]

/-- Witness for `udp_validate_iff`: a concrete accepted params map. -/
theorem udp_validate_iff_witness :
    udpValidate [(gs "send", gs "a"), (gs "proxy-protocol", gs "V2")] = true :=
  (udp_validate_iff [(gs "send", gs "a"), (gs "proxy-protocol", gs "V2")]).mpr
    (by decide)

/-- Witness for `udp_check_failure_paths`: a failed dial with a positive
timeout returns `(Unhealthy, nil)`. -/
theorem udp_check_failure_paths_witness :
    udpCheck { receive := gs "pong" }
      { dialOk := false, isUDPConn := true, setDeadlineOk := true,
        writeProxyOk := true, writeSendOk := true,
        read := Except.ok [] } 11 = (GoState.unhealthy, none) :=
  ((udp_check_failure_paths { receive := gs "pong" }
      { dialOk := false, isUDPConn := true, setDeadlineOk := true,
        writeProxyOk := true, writeSendOk := true,
        read := Except.ok [] } 11).2.2 (by decide)).2.1 (Or.inl rfl)

/-- C9: target-key rendering round-trips.  For an `L3L4Addr` whose protocol
is TCP, UDP, ICMP or ICMPv6 and whose port fits `uint16`, rendering the
canonical `IP-PROTO-PORT` string (the IP rendered by the standard library as
`ipStr`, dash-free, and re-parsed by it to an address `ip2` equal — in the
`net.IP.Equal` sense — to the original) and parsing it back with
`ParseL3L4Addr` yields a record denoting the same IP, protocol and port. -/
theorem l3l4_string_roundtrip
    (parseIP : List Nat → Option (List Nat)) (ipStr ip2 : List Nat)
    (addr : L3L4Addr)
    (hproto : addr.proto = IPProtoTCP ∨ addr.proto = IPProtoUDP ∨
              addr.proto = IPProtoICMP ∨ addr.proto = IPProtoICMPv6)
    (hport : addr.port < 65536)
    (hdash : 45 ∉ ipStr)
    (hip : parseIP ipStr = some ip2)
    (hipeq : ipEqual ip2 addr.ip = true) :
    ∃ r, parseL3L4Addr parseIP (l3l4String ipStr addr) = some r ∧
      ipEqual r.ip addr.ip = true ∧ r.proto = addr.proto ∧ r.port = addr.port := by
  have hnp : 45 ∉ ipProtoString addr.proto := by
    rcases hproto with h | h | h | h <;> rw [h] <;> decide
  have hpp : parseIPProto (ipProtoString addr.proto) = addr.proto := by
    rcases hproto with h | h | h | h <;> rw [h] <;> decide
  have hpnz : addr.proto ≠ 0 := by
    rcases hproto with h | h | h | h <;> rw [h] <;> decide
  have hsplit :
      splitOnDash (l3l4String ipStr addr) =
        [ipStr, ipProtoString addr.proto, utoa addr.port] := by
    have hshape :
        l3l4String ipStr addr =
          ipStr ++ 45 :: (ipProtoString addr.proto ++ 45 :: utoa addr.port) := by
      simp [l3l4String]
    rw [hshape, splitOnDash_append _ _ hdash,
      splitOnDash_append _ _ hnp, splitOnDash_no_dash _ (dash_not_mem_utoa _)]
  refine ⟨⟨ip2, addr.port, addr.proto⟩, ?_, hipeq, rfl, rfl⟩
  simp [parseL3L4Addr, hsplit, hip, hpp, hpnz, parseUint16_utoa _ hport]

/-- Witness for `l3l4_string_roundtrip`: the backend key
`10.0.0.1-TCP-80`. -/
theorem l3l4_string_roundtrip_witness :
    ∃ r, parseL3L4Addr
        (fun s => if s = gs "10.0.0.1" then some [10, 0, 0, 1] else none)
        (l3l4String (gs "10.0.0.1") ⟨[10, 0, 0, 1], 80, IPProtoTCP⟩) = some r ∧
      ipEqual r.ip [10, 0, 0, 1] = true ∧ r.proto = IPProtoTCP ∧ r.port = 80 :=
  l3l4_string_roundtrip
    (fun s => if s = gs "10.0.0.1" then some [10, 0, 0, 1] else none)
    (gs "10.0.0.1") [10, 0, 0, 1] ⟨[10, 0, 0, 1], 80, IPProtoTCP⟩
    (Or.inl rfl) (by decide) (by decide) (by decide) (by decide)

/-- C10: probe-method names round-trip.  `ParseMethod (m.String()) = m` for
each of the seven registered names (none, tcp, udp, ping, udpping, http,
auto); `ParseMethod` is case-insensitive; and it returns 0 on every string
that is not, case-insensitively, one of those seven names. -/
theorem parse_method_roundtrip :
    (parseMethod (methodString CheckMethodNone) = CheckMethodNone ∧
     parseMethod (methodString CheckMethodTCP) = CheckMethodTCP ∧
     parseMethod (methodString CheckMethodUDP) = CheckMethodUDP ∧
     parseMethod (methodString CheckMethodPing) = CheckMethodPing ∧
     parseMethod (methodString CheckMethodUDPPing) = CheckMethodUDPPing ∧
     parseMethod (methodString CheckMethodHTTP) = CheckMethodHTTP ∧
     parseMethod (methodString CheckMethodAuto) = CheckMethodAuto) ∧
    (∀ s, parseMethod s = parseMethod (goToLower s)) ∧
    (∀ s, goToLower s ∉ [gs "none", gs "tcp", gs "udp", gs "ping",
        gs "udpping", gs "http", gs "auto"] → parseMethod s = 0) := by
  refine ⟨by decide, fun s => ?_, fun s h => ?_⟩
  · simp only [parseMethod, goToLower_idem]
  · simp only [List.mem_cons, List.not_mem_nil, or_false, not_or] at h
    obtain ⟨h1, h2, h3, h4, h5, h6, h7⟩ := h
    simp [parseMethod, h1, h2, h3, h4, h5, h6, h7]

/-- Witness for `parse_method_roundtrip`: `passive` is not one of the seven
parseable names and maps to 0, even written upper-case. -/
theorem parse_method_roundtrip_witness : parseMethod (gs "PASSIVE") = 0 :=
  parse_method_roundtrip.2.2 (gs "PASSIVE") (by decide)
